import Mathlib

/-!
# motor.c : serial transport and command framing for the C-863 focus controller

A shallow embedding of `src/motor.c`.  The program's globals (`fd`, `oldtio`,
`newtio`), the part of the operating system it talks to (one serial device, its
descriptor, its line configuration, the pending alarm) and what it prints are
fields of one record `World`; every C function is a Lean function that takes a
`World` and returns the new one, together with its C return value.  Every system
call appends an `Event` to `World.trace`, so that the order and the arguments of
the calls the program makes can be stated.

Bytes are natural numbers.  A C string is modelled by its text, the list of the
bytes that stand before the terminating NUL.

The serial line is simulated: `World.line` lists what the next reads of the open
descriptor do (give bytes, fail with an `errno`, or not return before the alarm).
A call on a descriptor that is not the open one fails with `EBADF` and has no
effect, as in the kernel; `-1` is never an open descriptor.

The local array `char buffer[256]` of `send_cmd` is modelled by the memory that
starts at `buffer`.  What `sprintf` and `read` store is put at its start; whether
what `sprintf` stores stays inside the 256 cells of the array is a predicate of its
own, `sprintf_in_bounds`.
-/

namespace Motor

/-! ## Constants -/

/-- Idle delay between polls in microseconds: `#define USLEEP 100000`. -/
def USLEEP : Nat := 100000

/-- Retry budget: `#define RETRIES 10`. -/
def RETRIES : Nat := 10

/-- Size of `char buffer[256]` in `send_cmd`, also the length passed to `port_read`. -/
def BUFSIZE : Nat := 256

/-- Constant `EAGAIN` of `<errno.h>` (Linux value). -/
def EAGAIN : Nat := 11

/-- Constant `EBADF` of `<errno.h>` (Linux value): the descriptor is not an open one. -/
def EBADF : Nat := 9

/-- Constant `EIO` of `<errno.h>` (Linux value). -/
def EIO : Nat := 5

/-! ## Data model -/

/-- The fields of `struct termios` that `port_open` sets. -/
structure Termios where
  c_cflag : Nat
  c_iflag : Nat
  c_oflag : Nat
  c_lflag : Nat
  c_cc_VTIME : Nat
  c_cc_VMIN : Nat
  ispeed : Nat
  ospeed : Nat
deriving DecidableEq, Repr

/-- What one `read` of the open serial descriptor does: one entry of a simulated line. -/
inductive ReadOutcome where
  /-- the read returns these bytes (as many of them as fit the buffer); none is allowed -/
  | data (bs : List Nat)
  /-- the read returns `-1` with this `errno` -/
  | error (errno : Nat)
  /-- the read does not return before the alarm goes off -/
  | stall
deriving DecidableEq, Repr

/-- Result of the `read` system call. -/
inductive ReadRes where
  | bytes (bs : List Nat)
  | fail (errno : Nat)
deriving DecidableEq, Repr

/-- One observable step of the program. -/
inductive Event where
  | signal_SIGALRM
  | alarm (secs : Nat)
  | sigalrm_delivered
  | read (fd : Int) (len : Nat) (res : ReadRes)
  | write (fd : Int) (bytes : List Nat)
  | tcgetattr (fd : Int)
  | tcflush (fd : Int)
  | tcsetattr (fd : Int) (ok : Bool)
  | close (fd : Int) (ok : Bool)
  | open_dev (ret : Int)
  | usleep (us : Nat)
  | putc (c : Nat)
deriving DecidableEq, Repr

/-- Program globals, the serial device as the kernel sees it, and the observations. -/
structure World where
  /-- global `int fd` -/
  fd : Int
  /-- global `oldtio` -/
  oldtio : Termios
  /-- global `newtio` -/
  newtio : Termios
  /-- the descriptor number the kernel uses for the device (never negative) -/
  dev_fd : Nat
  /-- whether `open` of the device succeeds -/
  dev_present : Bool
  /-- whether descriptor `dev_fd` is open -/
  dev_open : Bool
  /-- line configuration of the device -/
  dev_tio : Termios
  /-- the simulated line: what the next reads of the open descriptor do -/
  line : List ReadOutcome
  /-- seconds of the pending alarm, 0 when none is armed -/
  alarm : Nat
  /-- whether `alarm_handler` is installed for `SIGALRM` -/
  handler : Bool
  /-- content of the memory of the array `buffer` when `send_cmd` is entered
  (indeterminate in C) -/
  junk : List Nat
  /-- bytes printed on standard output -/
  out : List Nat
  /-- system calls and prints made so far, oldest first -/
  trace : List Event
deriving DecidableEq, Repr

/-- Append one event to the trace. -/
def World.log (w : World) (e : Event) : World :=
  { w with trace := w.trace ++ [e] }

/-- The descriptor `d` names the open serial device. -/
def World.valid (w : World) (d : Int) : Bool :=
  w.dev_open && decide (d = (w.dev_fd : Int))

/-! ## System calls -/

/-- Call `tcsetattr(d, TCSANOW, &t)`: sets the line configuration when `d` is the open
descriptor, fails (`EBADF`) and changes nothing otherwise. -/
def sys_tcsetattr (w : World) (d : Int) (t : Termios) : World :=
  if w.valid d then ({ w with dev_tio := t }).log (Event.tcsetattr d true)
  else w.log (Event.tcsetattr d false)

/-- Call `close(d)`: releases `d` when it is the open descriptor, fails (`EBADF`) and
changes nothing otherwise. -/
def sys_close (w : World) (d : Int) : World :=
  if w.valid d then ({ w with dev_open := false }).log (Event.close d true)
  else w.log (Event.close d false)

/-- Call `alarm(secs)`: replaces the pending alarm; `alarm(0)` disarms it. -/
def sys_alarm (w : World) (secs : Nat) : World :=
  ({ w with alarm := secs }).log (Event.alarm secs)

/-- Call `signal(SIGALRM, alarm_handler)`. -/
def sys_signal (w : World) : World :=
  ({ w with handler := true }).log Event.signal_SIGALRM

/-- Call `usleep(us)`. -/
def sys_usleep (w : World) (us : Nat) : World :=
  w.log (Event.usleep us)

/-- Call `write(d, buffer, len)`; the program discards the result. -/
def sys_write (w : World) (d : Int) (bytes : List Nat) : World :=
  w.log (Event.write d bytes)

/-- Call `printf("%c", c)`. -/
def putc (w : World) (c : Nat) : World :=
  ({ w with out := w.out ++ [c] }).log (Event.putc c)

/-! ## Port manager (motor.c lines 33-81) -/

/-- Function `void port_close(void)`: lines 77-81.  There is no test of `fd`: both calls are
made with whatever `fd` holds. -/
def port_close (w : World) : World :=
  let w1 := sys_tcsetattr w w.fd w.oldtio
  let w2 := sys_close w1 w1.fd
  { w2 with fd := -1 }

/-- Function `void alarm_handler(int signum)`: lines 33-35. -/
def alarm_handler (w : World) : World :=
  port_close w

/-- Call `read(d, buffer, len)` as called at line 43, with the alarm of line 42 pending.
On a descriptor that is not open it fails with `EBADF` and the line is not touched.
On the open descriptor it consumes one entry of the simulated line; an exhausted
line has nothing to give (`EAGAIN`, the descriptor is non-blocking).  When the read
stalls the pending alarm goes off: `SIGALRM` is delivered, `alarm_handler` runs,
and the interrupted call, restarted on the descriptor the handler has just
released, fails with `EBADF`. -/
def sys_read (w : World) (d : Int) (len : Nat) : ReadRes × World :=
  if w.valid d then
    match w.line with
    | [] => (ReadRes.fail EAGAIN, w.log (Event.read d len (ReadRes.fail EAGAIN)))
    | ReadOutcome.data bs :: rest =>
        (ReadRes.bytes (bs.take len),
         ({ w with line := rest }).log (Event.read d len (ReadRes.bytes (bs.take len))))
    | ReadOutcome.error e :: rest =>
        (ReadRes.fail e, ({ w with line := rest }).log (Event.read d len (ReadRes.fail e)))
    | ReadOutcome.stall :: rest =>
        let w1 := ({ w with line := rest, alarm := 0 }).log Event.sigalrm_delivered
        let w2 := alarm_handler w1
        (ReadRes.fail EBADF, w2.log (Event.read d len (ReadRes.fail EBADF)))
  else (ReadRes.fail EBADF, w.log (Event.read d len (ReadRes.fail EBADF)))

/-- Lines 41-43 of `port_read` on their own: install the handler, arm the alarm, read
from `fd`; gives the result of the underlying read and the world after it. -/
def guarded_read (w : World) (len : Nat) : ReadRes × World :=
  let w1 := sys_signal w
  let w2 := sys_alarm w1 5
  sys_read w2 w2.fd len

/-- Store `bs` at the start of the memory that begins at `buffer`. -/
def store (bs : List Nat) (buffer : List Nat) : List Nat :=
  bs ++ buffer.drop bs.length

/-- Function `int port_read(char *buffer, int len)`: lines 38-51.  Returns `retval`, the buffer
and the new world. -/
def port_read (w : World) (buffer : List Nat) (len : Nat) : Int × List Nat × World :=
  let w1 := sys_signal w
  let w2 := sys_alarm w1 5
  match sys_read w2 w2.fd len with
  | (ReadRes.bytes bs, w3) =>
      ((bs.length : Int), store bs buffer, sys_alarm w3 0)
  | (ReadRes.fail errno, w3) =>
      let w4 := if errno ≠ EAGAIN then port_close w3 else w3
      (0, buffer, sys_alarm w4 0)

/-- Function `int port_write(char *buffer, int len)`: lines 53-58, the `len` first bytes of the
buffer go to `write`. -/
def port_write (w : World) (buffer : List Nat) (len : Nat) : World :=
  sys_write w w.fd (buffer.take len)

/-- Constant `B9600` of `<termios.h>` (Linux value, as for the other flags below). -/
def B9600 : Nat := 13

/-- Flags `CS8 | CREAD | CLOCAL`. -/
def CS8_CREAD_CLOCAL : Nat := 48 + 128 + 2048

/-- Flag `IGNPAR`. -/
def IGNPAR : Nat := 4

/-- Function `void port_open(char *device)`: lines 60-75.  `open` gives the device's descriptor
when the device can be opened and `-1` otherwise. -/
def port_open (w : World) (_device : List Nat) : World :=
  let ret : Int := if w.dev_present then (w.dev_fd : Int) else -1
  let w1 := ({ w with fd := ret, dev_open := w.dev_open || w.dev_present }).log (Event.open_dev ret)
  if w1.fd = -1 then w1
  else
    let w2 := ({ w1 with oldtio := w1.dev_tio }).log (Event.tcgetattr w1.fd)
    let t : Termios :=
      { c_cflag := CS8_CREAD_CLOCAL, c_iflag := IGNPAR, c_oflag := 0, c_lflag := 0,
        c_cc_VTIME := 1, c_cc_VMIN := 1, ispeed := B9600, ospeed := B9600 }
    let w3 := ({ w2 with newtio := t }).log (Event.tcflush w2.fd)
    sys_tcsetattr w3 w3.fd w3.newtio

/-! ## Command framer / transceiver (motor.c lines 83-108) -/

/-- Length of a text: `strlen(cmd)`. -/
def strlen (cmd : List Nat) : Nat := cmd.length

/-- The characters `sprintf(buffer,"%c%c%s%c",1,48,cmd,13)` formats, followed by the
NUL that `sprintf` appends. -/
def sprintf_out (cmd : List Nat) : List Nat :=
  [1, 48] ++ cmd ++ [13] ++ [0]

/-- The bytes `sprintf` writes stay inside `char buffer[256]`. -/
def sprintf_in_bounds (cmd : List Nat) : Prop :=
  (sprintf_out cmd).length ≤ BUFSIZE

instance (cmd : List Nat) : Decidable (sprintf_in_bounds cmd) := by
  unfold sprintf_in_bounds; infer_instance

/-- The `len+3` bytes that `port_write(buffer,len+3)` reads lie inside `char buffer[256]`. -/
def write_in_bounds (cmd : List Nat) : Prop :=
  strlen cmd + 3 ≤ BUFSIZE

instance (cmd : List Nat) : Decidable (write_in_bounds cmd) := by
  unfold write_in_bounds; infer_instance

/-- The memory at `buffer` after line 90 of `send_cmd` entered in `w`.  The array
itself is the first 256 cells. -/
def frame_buffer (cmd : List Nat) (w : World) : List Nat :=
  store (sprintf_out cmd) w.junk

/-- The frame of a command text: the `len+3` first bytes that `sprintf` formats, which
are the bytes handed to `write` at line 91 (`frame_buffer_take`). -/
def frame (cmd : List Nat) : List Nat :=
  (sprintf_out cmd).take (strlen cmd + 3)

/-- Lines 98-100: `ok` for the byte `c`. -/
def ok_byte (c : Nat) : Bool :=
  let ok := true
  let ok := if c = 3 then false else ok
  let ok := if c = 13 then false else ok
  ok

/-- The `for` loop of lines 97-102. -/
def print_reply (buffer : List Nat) (retval : Int) (w : World) : World :=
  (List.range retval.toNat).foldl
    (fun w i => if ok_byte (buffer.getD i 0) then putc w (buffer.getD i 0) else w) w

/-- The `while` loop of lines 93-106, entered with `retries` and the current `retval`
and buffer; returns the final `retries`, `retval` and world. -/
def poll_loop : Nat → Int → List Nat → World → Nat × Int × World
  | 0, retval, _, w => (0, retval, w)
  | retries + 1, _, buffer, w =>
      let w1 := sys_usleep w USLEEP
      match port_read w1 buffer BUFSIZE with
      | (retval, buffer1, w2) =>
          if retval > 0 then (retries + 1, retval, print_reply buffer1 retval w2)
          else poll_loop retries retval buffer1 w2

/-- Function `int send_cmd(char *cmd)`: lines 83-108; the result is `retval>0`.
`retval` is not set before the loop; the loop sets it, as `RETRIES` is positive.
The array `buffer` has indeterminate content before line 90: `w.junk`. -/
def send_cmd (cmd : List Nat) (w : World) : Bool × World :=
  let len := strlen cmd
  let buffer := store (sprintf_out cmd) w.junk
  let w1 := port_write w buffer (len + 3)
  let retries := RETRIES
  match poll_loop retries 0 buffer w1 with
  | (_, retval, w2) => (decide (retval > 0), w2)

/-- The world in which the `while` loop of `send_cmd` starts: after lines 90-91. -/
def after_write (cmd : List Nat) (w : World) : World :=
  port_write w (frame_buffer cmd w) (strlen cmd + 3)

/-- The state of `send_cmd` when its loop ends: `retries`, `retval` and the world. -/
def send_cmd_loop (cmd : List Nat) (w : World) : Nat × Int × World :=
  poll_loop RETRIES 0 (frame_buffer cmd w) (after_write cmd w)

/-! ## Command dispatcher (motor.c lines 110-160) -/

/-- The text of a string literal. -/
def cstr (s : String) : List Nat := s.toList.map Char.toNat

/-- Function `strcmp` on texts: zero exactly when the two are equal, otherwise the sign of the
first difference. -/
def strcmp : List Nat → List Nat → Int
  | [], [] => 0
  | [], _ :: _ => -1
  | _ :: _, [] => 1
  | a :: as, b :: bs => if a = b then strcmp as bs else if a < b then -1 else 1

/-- The `SWITCH COMMAND` block of `main`: lines 136-153. -/
def switch_command (arg : List Nat) (w : World) : World :=
  if strcmp arg (cstr "start") = 0 then
    let w1 := (send_cmd (cstr "MN") w).2
    (send_cmd (cstr "DP350") w1).2
  else if strcmp arg (cstr "stop") = 0 then
    (send_cmd (cstr "RT") w).2
  else if strcmp arg (cstr "pos") = 0 then
    (send_cmd (cstr "TT,TP") w).2
  else if strcmp arg (cstr "home") = 0 then
    let w1 := (send_cmd (cstr "FE2") w).2
    (send_cmd (cstr "WS0,DH") w1).2
  else if strcmp arg (cstr "move+") = 0 then
    (send_cmd (cstr "MR5000") w).2
  else if strcmp arg (cstr "move-") = 0 then
    (send_cmd (cstr "MR-5000") w).2
  else
    (send_cmd arg w).2

/-- Lines 94-95: one poll attempt (the idle delay, then `port_read`), from the buffer
and the world before it. -/
def attempt (s : List Nat × World) : Int × List Nat × World :=
  port_read (sys_usleep s.2 USLEEP) s.1 BUFSIZE

/-- The result of the underlying `read` of that poll attempt. -/
def attempt_read (s : List Nat × World) : ReadRes :=
  (guarded_read (sys_usleep s.2 USLEEP) BUFSIZE).1

/-- Buffer and world before poll attempt number `i+1` of a loop that starts in `s` and
whose attempts so far have not stopped it. -/
def before_attempt (s : List Nat × World) : Nat → List Nat × World
  | 0 => s
  | i + 1 => (attempt (before_attempt s i)).2

/-- The count `port_read` returns at poll attempt number `j+1` of `send_cmd cmd` run in
`w`, when the loop gets that far. -/
def poll_count (cmd : List Nat) (w : World) (j : Nat) : Int :=
  (attempt (before_attempt (frame_buffer cmd w, after_write cmd w) j)).1

/-- The result of the underlying `read` at poll attempt number `j+1` of `send_cmd cmd`
run in `w`. -/
def poll_read (cmd : List Nat) (w : World) (j : Nat) : ReadRes :=
  attempt_read (before_attempt (frame_buffer cmd w, after_write cmd w) j)

/-- The world after poll attempt number `j` of `send_cmd cmd` run in `w` (after the
write when `j = 0`). -/
def poll_world (cmd : List Nat) (w : World) (j : Nat) : World :=
  (before_attempt (frame_buffer cmd w, after_write cmd w) j).2

/-- The idle delay and the read of each of `k` poll attempts, as `polls` shows them. -/
def k_polls (k : Nat) : List Bool :=
  (List.replicate k [true, false]).flatten

/-! ## Observations on a trace -/

/-- The buffers of the `write` calls of a trace, in order. -/
def writes (t : List Event) : List (List Nat) :=
  t.filterMap (fun e => match e with
    | Event.write _ bs => some bs
    | _ => none)

/-- The `read` calls of a trace: descriptor and result, in order. -/
def reads (t : List Event) : List (Int × ReadRes) :=
  t.filterMap (fun e => match e with
    | Event.read d _ r => some (d, r)
    | _ => none)

/-- The idle delays and the reads of a trace, in order: `true` for `usleep(USLEEP)`,
`false` for a `read`. -/
def polls (t : List Event) : List Bool :=
  t.filterMap (fun e => match e with
    | Event.usleep us => if us = USLEEP then some true else none
    | Event.read _ _ _ => some false
    | _ => none)

/-- The descriptors on which a trace calls `close`, with the result of each call. -/
def closes (t : List Event) : List (Int × Bool) :=
  t.filterMap (fun e => match e with
    | Event.close d ok => some (d, ok)
    | _ => none)

/-- The descriptors on which a trace calls `tcsetattr`, with the result of each call. -/
def restores (t : List Event) : List (Int × Bool) :=
  t.filterMap (fun e => match e with
    | Event.tcsetattr d ok => some (d, ok)
    | _ => none)

/-- A world at program start: nothing is open, the device can be opened and will get
descriptor 3, and the line behaves as given. -/
def initial (line : List ReadOutcome) : World :=
  let t0 : Termios :=
    { c_cflag := 3261, c_iflag := 1280, c_oflag := 5, c_lflag := 35387,
      c_cc_VTIME := 0, c_cc_VMIN := 1, ispeed := 15, ospeed := 15 }
  { fd := -1, oldtio := t0, newtio := t0, dev_fd := 3, dev_present := true,
    dev_open := false, dev_tio := t0, line := line, alarm := 0, handler := false,
    junk := List.replicate 256 0, out := [], trace := [] }

/-- The world after `port_open` at program start: the device is open on descriptor 3,
with the given simulated line. -/
def opened (line : List ReadOutcome) : World :=
  port_open (initial line) (cstr "/dev/ttyS0")

/-- The output filter of `send_cmd`: what the loop of lines 97-102 prints when the buffer
holds the `retval = b.length` bytes `b`, observed in a world that has printed nothing. -/
def output_filter (b : List Nat) : List Nat :=
  (print_reply b (b.length : Int) (opened [])).out

/-! ## Basic facts about the trace -/

@[simp]
theorem writes_append (s t : List Event) : writes (s ++ t) = writes s ++ writes t := by
  simp [writes]

@[simp]
theorem reads_append (s t : List Event) : reads (s ++ t) = reads s ++ reads t := by
  simp [reads]

@[simp]
theorem polls_append (s t : List Event) : polls (s ++ t) = polls s ++ polls t := by
  simp [polls]

@[simp]
theorem closes_append (s t : List Event) : closes (s ++ t) = closes s ++ closes t := by
  simp [closes]

@[simp]
theorem restores_append (s t : List Event) : restores (s ++ t) = restores s ++ restores t := by
  simp [restores]

/-! ## The frame -/

/-- The bytes that `port_write(buffer,len+3)` takes from the buffer are the frame,
whatever the array held before. -/
theorem frame_buffer_take (cmd : List Nat) (w : World) :
    (frame_buffer cmd w).take (strlen cmd + 3) = frame cmd := by
  have h : strlen cmd + 3 ≤ (sprintf_out cmd).length := by simp [sprintf_out, strlen]
  rw [frame_buffer, store, frame, List.take_append_of_le_length h]

/-! ## The port manager -/

theorem valid_neg_one (w : World) : w.valid (-1) = false := by
  have h : ¬ ((-1 : Int) = (w.dev_fd : Int)) := by omega
  simp [World.valid, h]

theorem sys_tcsetattr_eq (w : World) (d : Int) (t : Termios) :
    sys_tcsetattr w d t =
      { w with
        dev_tio := if w.valid d then t else w.dev_tio
        trace := w.trace ++ [Event.tcsetattr d (w.valid d)] } := by
  unfold sys_tcsetattr
  cases h : w.valid d <;> simp [World.log]

theorem sys_close_eq (w : World) (d : Int) :
    sys_close w d =
      { w with
        dev_open := w.dev_open && !(w.valid d)
        trace := w.trace ++ [Event.close d (w.valid d)] } := by
  unfold sys_close
  cases h : w.valid d <;> simp [World.log]

/-- What `port_close` does, field by field. -/
theorem port_close_eq (w : World) :
    port_close w =
      { w with
        fd := -1
        dev_open := w.dev_open && !(w.valid w.fd)
        dev_tio := if w.valid w.fd then w.oldtio else w.dev_tio
        trace := w.trace ++ [Event.tcsetattr w.fd (w.valid w.fd), Event.close w.fd (w.valid w.fd)] } := by
  have hv : ∀ (t : Termios) (tr : List Event),
      World.valid { w with dev_tio := t, trace := tr } w.fd = w.valid w.fd := by
    intro t tr; rfl
  simp only [port_close, sys_tcsetattr_eq, sys_close_eq, hv]
  simp

@[simp]
theorem valid_log (w : World) (e : Event) (d : Int) : (w.log e).valid d = w.valid d := rfl

@[simp]
theorem valid_sys_alarm (w : World) (n : Nat) (d : Int) : (sys_alarm w n).valid d = w.valid d := rfl

@[simp]
theorem valid_sys_signal (w : World) (d : Int) : (sys_signal w).valid d = w.valid d := rfl

@[simp]
theorem valid_sys_usleep (w : World) (n : Nat) (d : Int) : (sys_usleep w n).valid d = w.valid d := rfl

/-- The read on a descriptor that is not the open one. -/
theorem guarded_read_invalid (w : World) (len : Nat) (h : w.valid w.fd = false) :
    guarded_read w len =
      (ReadRes.fail EBADF,
        { w with
          handler := true
          alarm := 5
          trace := w.trace ++ [Event.signal_SIGALRM, Event.alarm 5,
            Event.read w.fd len (ReadRes.fail EBADF)] }) := by
  show sys_read (sys_alarm (sys_signal w) 5) w.fd len = _
  unfold sys_read
  rw [if_neg (by simp [h])]
  simp [sys_alarm, sys_signal, World.log]

/-- The read on the open descriptor, by the next entry of the simulated line. -/
theorem guarded_read_valid (w : World) (len : Nat) (h : w.valid w.fd = true) :
    guarded_read w len =
      match w.line with
      | [] =>
          (ReadRes.fail EAGAIN,
            { w with
              handler := true
              alarm := 5
              trace := w.trace ++ [Event.signal_SIGALRM, Event.alarm 5,
                Event.read w.fd len (ReadRes.fail EAGAIN)] })
      | ReadOutcome.data bs :: rest =>
          (ReadRes.bytes (bs.take len),
            { w with
              handler := true
              alarm := 5
              line := rest
              trace := w.trace ++ [Event.signal_SIGALRM, Event.alarm 5,
                Event.read w.fd len (ReadRes.bytes (bs.take len))] })
      | ReadOutcome.error e :: rest =>
          (ReadRes.fail e,
            { w with
              handler := true
              alarm := 5
              line := rest
              trace := w.trace ++ [Event.signal_SIGALRM, Event.alarm 5,
                Event.read w.fd len (ReadRes.fail e)] })
      | ReadOutcome.stall :: rest =>
          (ReadRes.fail EBADF,
            { w with
              fd := -1
              handler := true
              alarm := 0
              line := rest
              dev_open := false
              dev_tio := w.oldtio
              trace := w.trace ++ [Event.signal_SIGALRM, Event.alarm 5, Event.sigalrm_delivered,
                Event.tcsetattr w.fd true, Event.close w.fd true,
                Event.read w.fd len (ReadRes.fail EBADF)] }) := by
  show sys_read (sys_alarm (sys_signal w) 5) w.fd len = _
  unfold sys_read
  rw [if_pos (by simp [h])]
  have hv : ∀ (l : List ReadOutcome) (a : Nat) (b : Bool) (tr : List Event),
      World.valid { w with line := l, alarm := a, handler := b, trace := tr } w.fd = true := by
    intro l a b tr; exact h
  rcases hl : w.line with _ | ⟨o, rest⟩
  · simp [sys_alarm, sys_signal, World.log, hl]
  · cases o <;>
      simp [sys_alarm, sys_signal, World.log, hl, alarm_handler, port_close_eq, hv]

theorem port_read_eq (w : World) (buffer : List Nat) (len : Nat) :
    port_read w buffer len =
      match guarded_read w len with
      | (ReadRes.bytes bs, w3) => ((bs.length : Int), store bs buffer, sys_alarm w3 0)
      | (ReadRes.fail errno, w3) =>
          (0, buffer, sys_alarm (if errno ≠ EAGAIN then port_close w3 else w3) 0) := rfl

/-- The value `port_read` returns and what it leaves in the buffer, from the result of
the underlying read. -/
theorem port_read_result (w : World) (buffer : List Nat) (len : Nat) :
    (port_read w buffer len).1 =
        (match (guarded_read w len).1 with
          | ReadRes.bytes bs => (bs.length : Int)
          | ReadRes.fail _ => 0) ∧
      (port_read w buffer len).2.1 =
        (match (guarded_read w len).1 with
          | ReadRes.bytes bs => store bs buffer
          | ReadRes.fail _ => buffer) := by
  rw [port_read_eq]
  rcases guarded_read w len with ⟨r, w3⟩
  cases r <;> simp

/-- The world `port_read` leaves, from the result of the underlying read. -/
theorem port_read_world (w : World) (buffer : List Nat) (len : Nat) :
    (port_read w buffer len).2.2 =
      (match guarded_read w len with
        | (ReadRes.bytes _, w3) => sys_alarm w3 0
        | (ReadRes.fail errno, w3) => sys_alarm (if errno ≠ EAGAIN then port_close w3 else w3) 0) := by
  rw [port_read_eq]
  rcases guarded_read w len with ⟨r, w3⟩
  cases r <;> simp

/-- Facts about one `port_read` that hold whatever the line does. -/
theorem port_read_facts (w : World) (buffer : List Nat) (len : Nat) :
    polls (port_read w buffer len).2.2.trace = polls w.trace ++ [false] ∧
    reads (port_read w buffer len).2.2.trace
      = reads w.trace ++ [(w.fd, (guarded_read w len).1)] ∧
    writes (port_read w buffer len).2.2.trace = writes w.trace ∧
    (port_read w buffer len).2.2.out = w.out ∧
    (port_read w buffer len).2.2.alarm = 0 ∧
    (port_read w buffer len).2.2.trace.getLast? = some (Event.alarm 0) := by
  rw [port_read_world]
  cases hv : w.valid w.fd
  · rw [guarded_read_invalid w len hv]
    simp [port_close_eq, sys_alarm, World.log, polls, reads, writes, EBADF, EAGAIN]
  · rw [guarded_read_valid w len hv]
    rcases hl : w.line with _ | ⟨o, rest⟩
    · simp [port_close_eq, sys_alarm, World.log, polls, reads, writes, EBADF, EAGAIN]
    · cases o
      · simp [port_close_eq, sys_alarm, World.log, polls, reads, writes, EBADF, EAGAIN]
      · simp only []
        split_ifs <;>
          simp [port_close_eq, sys_alarm, World.log, polls, reads, writes, EBADF, EAGAIN]
      · simp [port_close_eq, sys_alarm, World.log, polls, reads, writes, EBADF, EAGAIN]

/-! ## The poll loop -/

theorem poll_loop_succ (n : Nat) (rv : Int) (s : List Nat × World) :
    poll_loop (n + 1) rv s.1 s.2 =
      if 0 < (attempt s).1 then
        (n + 1, (attempt s).1, print_reply (attempt s).2.1 (attempt s).1 (attempt s).2.2)
      else poll_loop n (attempt s).1 (attempt s).2.1 (attempt s).2.2 := by
  simp only [poll_loop, attempt, gt_iff_lt]

theorem before_attempt_succ (s : List Nat × World) (i : Nat) :
    before_attempt s (i + 1) = before_attempt (attempt s).2 i := by
  induction i with
  | zero => rfl
  | succ i ih =>
    show (attempt (before_attempt s (i + 1))).2 = (attempt (before_attempt (attempt s).2 i)).2
    rw [ih]

/-- The loop stops at the first attempt that reads a byte: attempt `k+1`, when the `k`
before it read none and the budget allows it. -/
theorem poll_loop_hit (k : Nat) : ∀ (n : Nat) (rv : Int) (s : List Nat × World), k < n →
    (∀ j, j < k → ¬ 0 < (attempt (before_attempt s j)).1) →
    0 < (attempt (before_attempt s k)).1 →
    poll_loop n rv s.1 s.2 =
      (n - k, (attempt (before_attempt s k)).1,
        print_reply (attempt (before_attempt s k)).2.1 (attempt (before_attempt s k)).1
          (attempt (before_attempt s k)).2.2) := by
  induction k with
  | zero =>
    intro n rv s hn _ h1
    obtain ⟨m, rfl⟩ : ∃ m, n = m + 1 := ⟨n - 1, by omega⟩
    rw [poll_loop_succ]
    simp only [before_attempt] at h1
    simp [h1, before_attempt]
  | succ k ih =>
    intro n rv s hn h0 h1
    obtain ⟨m, rfl⟩ : ∃ m, n = m + 1 := ⟨n - 1, by omega⟩
    rw [poll_loop_succ]
    have hfirst : ¬ 0 < (attempt s).1 := h0 0 (by omega)
    rw [if_neg hfirst]
    have := ih m (attempt s).1 (attempt s).2 (by omega)
      (fun j hj => by rw [← before_attempt_succ]; exact h0 (j + 1) (by omega))
      (by rw [← before_attempt_succ]; exact h1)
    rw [this, ← before_attempt_succ]
    simp

/-- The loop runs the whole budget when no attempt reads a byte. -/
theorem poll_loop_miss : ∀ (n : Nat) (rv : Int) (s : List Nat × World),
    (∀ j, j < n + 1 → ¬ 0 < (attempt (before_attempt s j)).1) →
    poll_loop (n + 1) rv s.1 s.2 =
      (0, (attempt (before_attempt s n)).1, (before_attempt s (n + 1)).2) := by
  intro n
  induction n with
  | zero =>
    intro rv s h0
    have hfirst : ¬ 0 < (attempt s).1 := h0 0 (by omega)
    rw [poll_loop_succ, if_neg hfirst]
    simp [poll_loop, before_attempt]
  | succ n ih =>
    intro rv s h0
    have hfirst : ¬ 0 < (attempt s).1 := h0 0 (by omega)
    rw [poll_loop_succ, if_neg hfirst]
    have := ih (attempt s).1 (attempt s).2
      (fun j hj => by rw [← before_attempt_succ]; exact h0 (j + 1) (by omega))
    rw [this, ← before_attempt_succ, ← before_attempt_succ]

/-! ## The output filter -/

theorem print_fold (buffer : List Nat) : ∀ (l : List Nat) (w : World),
    (l.foldl (fun w i => if ok_byte (buffer.getD i 0) then putc w (buffer.getD i 0) else w) w).out
        = w.out ++ (l.map (fun i => buffer.getD i 0)).filter ok_byte ∧
    polls (l.foldl (fun w i => if ok_byte (buffer.getD i 0) then putc w (buffer.getD i 0) else w) w).trace
        = polls w.trace ∧
    reads (l.foldl (fun w i => if ok_byte (buffer.getD i 0) then putc w (buffer.getD i 0) else w) w).trace
        = reads w.trace ∧
    writes (l.foldl (fun w i => if ok_byte (buffer.getD i 0) then putc w (buffer.getD i 0) else w) w).trace
        = writes w.trace ∧
    (l.foldl (fun w i => if ok_byte (buffer.getD i 0) then putc w (buffer.getD i 0) else w) w).fd
        = w.fd := by
  intro l
  induction l with
  | nil => intro w; simp
  | cons i l ih =>
    intro w
    simp only [List.foldl_cons, List.map_cons, List.filter_cons]
    cases hk : ok_byte (buffer.getD i 0)
    · simp only [Bool.false_eq_true, if_false]
      exact ih w
    · simp only [if_true]
      obtain ⟨h1, h2, h3, h4, h5⟩ := ih (putc w (buffer.getD i 0))
      rw [h1, h2, h3, h4, h5]
      simp [putc, World.log, polls, reads, writes]

theorem range_map_store (bs buffer : List Nat) :
    (List.range bs.length).map (fun i => (store bs buffer).getD i 0) = bs := by
  apply List.ext_getElem
  · simp
  · intro i h1 h2
    simp only [List.length_map, List.length_range] at h1
    simp [store, List.getElem?_append_left h1, List.getElem?_eq_getElem h1]

/-- The bytes the `for` loop prints are those of the buffer, in order, without the
bytes 3 and 13. -/
theorem print_reply_out (bs buffer : List Nat) (w : World) :
    (print_reply (store bs buffer) (bs.length : Int) w).out = w.out ++ bs.filter ok_byte := by
  unfold print_reply
  rw [(print_fold (store bs buffer) _ w).1]
  simp only [Int.toNat_ofNat]
  rw [range_map_store]

theorem print_reply_trace (buffer : List Nat) (n : Int) (w : World) :
    polls (print_reply buffer n w).trace = polls w.trace ∧
    reads (print_reply buffer n w).trace = reads w.trace ∧
    writes (print_reply buffer n w).trace = writes w.trace ∧
    (print_reply buffer n w).fd = w.fd := by
  unfold print_reply
  exact (print_fold buffer _ w).2

theorem ok_byte_iff (c : Nat) : ok_byte c = true ↔ c ≠ 3 ∧ c ≠ 13 := by
  unfold ok_byte
  by_cases h3 : c = 3
  · simp [h3]
  · by_cases h13 : c = 13
    · simp [h13]
    · simp [h3, h13]

/-! ## Poll attempts -/

theorem attempt_result (s : List Nat × World) :
    (attempt s).1 =
        (match attempt_read s with
          | ReadRes.bytes bs => (bs.length : Int)
          | ReadRes.fail _ => 0) ∧
      (attempt s).2.1 =
        (match attempt_read s with
          | ReadRes.bytes bs => store bs s.1
          | ReadRes.fail _ => s.1) :=
  port_read_result (sys_usleep s.2 USLEEP) s.1 BUFSIZE

theorem attempt_nonneg (s : List Nat × World) : 0 ≤ (attempt s).1 := by
  rw [(attempt_result s).1]
  cases attempt_read s <;> simp

theorem attempt_facts (s : List Nat × World) :
    polls (attempt s).2.2.trace = polls s.2.trace ++ [true, false] ∧
    reads (attempt s).2.2.trace = reads s.2.trace ++ [(s.2.fd, attempt_read s)] ∧
    writes (attempt s).2.2.trace = writes s.2.trace ∧
    (attempt s).2.2.out = s.2.out := by
  obtain ⟨h1, h2, h3, h4, _, _⟩ := port_read_facts (sys_usleep s.2 USLEEP) s.1 BUFSIZE
  refine ⟨?_, ?_, ?_, ?_⟩
  · rw [attempt, h1]; simp [sys_usleep, World.log, polls]
  · rw [attempt, h2]; simp [sys_usleep, World.log, reads, attempt_read]
  · rw [attempt, h3]; simp [sys_usleep, World.log, writes]
  · rw [attempt, h4]; rfl

theorem k_polls_succ (k : Nat) : k_polls (k + 1) = k_polls k ++ [true, false] := by
  simp [k_polls, List.replicate_succ']

theorem before_attempt_facts (s : List Nat × World) (j : Nat) :
    polls (before_attempt s j).2.trace = polls s.2.trace ++ k_polls j ∧
    (reads (before_attempt s j).2.trace).length = (reads s.2.trace).length + j ∧
    writes (before_attempt s j).2.trace = writes s.2.trace ∧
    (before_attempt s j).2.out = s.2.out := by
  induction j with
  | zero => simp [before_attempt, k_polls]
  | succ j ih =>
    obtain ⟨h1, h2, h3, h4⟩ := ih
    obtain ⟨a1, a2, a3, a4⟩ := attempt_facts (before_attempt s j)
    refine ⟨?_, ?_, ?_, ?_⟩
    · show polls (attempt (before_attempt s j)).2.2.trace = _
      rw [a1, h1, k_polls_succ]; simp
    · show (reads (attempt (before_attempt s j)).2.2.trace).length = _
      rw [a2]; simp [h2]; omega
    · show writes (attempt (before_attempt s j)).2.2.trace = _
      rw [a3, h3]
    · show (attempt (before_attempt s j)).2.2.out = _
      rw [a4, h4]

/-! ## send_cmd -/

theorem after_write_facts (cmd : List Nat) (w : World) :
    (after_write cmd w).trace = w.trace ++ [Event.write w.fd (frame cmd)] ∧
    (after_write cmd w).out = w.out ∧
    (after_write cmd w).fd = w.fd := by
  simp [after_write, port_write, sys_write, World.log, frame_buffer_take]

/-- The state in which the loop of `send_cmd` ends when attempt `k+1` is the first to
read a byte. -/
theorem send_cmd_loop_hit (cmd : List Nat) (w : World) (k : Nat) (hk : k < RETRIES)
    (h0 : ∀ j, j < k → poll_count cmd w j = 0) (h1 : 0 < poll_count cmd w k) :
    send_cmd_loop cmd w =
      (RETRIES - k, poll_count cmd w k,
        print_reply (attempt (before_attempt (frame_buffer cmd w, after_write cmd w) k)).2.1
          (poll_count cmd w k)
          (attempt (before_attempt (frame_buffer cmd w, after_write cmd w) k)).2.2) := by
  have := poll_loop_hit k RETRIES 0 (frame_buffer cmd w, after_write cmd w) hk
    (fun j hj => by have := h0 j hj; unfold poll_count at this; omega) h1
  exact this

/-- The state in which the loop of `send_cmd` ends when no attempt reads a byte. -/
theorem send_cmd_loop_miss (cmd : List Nat) (w : World)
    (h0 : ∀ j, j < RETRIES → poll_count cmd w j = 0) :
    send_cmd_loop cmd w = (0, poll_count cmd w (RETRIES - 1), poll_world cmd w RETRIES) := by
  have := poll_loop_miss (RETRIES - 1) 0 (frame_buffer cmd w, after_write cmd w)
    (fun j hj => by
      have := h0 j (by simp only [RETRIES] at hj ⊢; omega)
      unfold poll_count at this; omega)
  exact this

theorem send_cmd_eq (cmd : List Nat) (w : World) :
    send_cmd cmd w = (decide ((send_cmd_loop cmd w).2.1 > 0), (send_cmd_loop cmd w).2.2) := rfl

theorem poll_world_facts (cmd : List Nat) (w : World) (j : Nat) :
    polls (poll_world cmd w j).trace = polls w.trace ++ k_polls j ∧
    (reads (poll_world cmd w j).trace).length = (reads w.trace).length + j ∧
    writes (poll_world cmd w j).trace = writes w.trace ++ [frame cmd] ∧
    (poll_world cmd w j).out = w.out := by
  obtain ⟨h1, h2, h3, h4⟩ := before_attempt_facts (frame_buffer cmd w, after_write cmd w) j
  obtain ⟨a1, a2, _⟩ := after_write_facts cmd w
  refine ⟨?_, ?_, ?_, ?_⟩
  · rw [poll_world, h1]; simp [a1, polls]
  · rw [poll_world, h2]; simp [a1, reads]
  · rw [poll_world, h3]; simp [a1, writes]
  · rw [poll_world, h4, a2]

/-- What `send_cmd` does when no poll attempt of the budget reads a byte. -/
theorem send_cmd_miss (cmd : List Nat) (w : World)
    (h0 : ∀ j, j < RETRIES → poll_count cmd w j = 0) :
    send_cmd cmd w = (false, poll_world cmd w RETRIES) := by
  rw [send_cmd_eq, send_cmd_loop_miss cmd w h0]
  have := h0 (RETRIES - 1) (by simp [RETRIES])
  simp [this]

/-- C2: `send_cmd` stops at the first poll attempt that reads at least one byte.  If
that is attempt `k` with `1 ≤ k ≤ 10`, it returns true, it has made exactly `k` poll
attempts (`k` reads, each right after one idle delay of `USLEEP`) and `retries` has
gone down by `k-1` from `RETRIES`.  If none of the first 10 attempts reads a byte it returns false
after exactly 10 such attempts, with `retries` at 0.  A poll attempt never returns a
negative count, so one of the two cases holds. -/
theorem send_cmd_poll_attempts (cmd : List Nat) (w : World) :
    (∀ k, 1 ≤ k → k ≤ RETRIES →
      (∀ j, j < k - 1 → poll_count cmd w j = 0) → 0 < poll_count cmd w (k - 1) →
        (send_cmd cmd w).1 = true ∧
        polls (send_cmd cmd w).2.trace = polls w.trace ++ k_polls k ∧
        (reads (send_cmd cmd w).2.trace).length = (reads w.trace).length + k ∧
        (send_cmd_loop cmd w).1 + (k - 1) = RETRIES) ∧
    ((∀ j, j < RETRIES → poll_count cmd w j = 0) →
        (send_cmd cmd w).1 = false ∧
        polls (send_cmd cmd w).2.trace = polls w.trace ++ k_polls RETRIES ∧
        (reads (send_cmd cmd w).2.trace).length = (reads w.trace).length + RETRIES ∧
        (send_cmd_loop cmd w).1 = 0) ∧
    (∀ j, 0 ≤ poll_count cmd w j) := by
  refine ⟨?_, ?_, fun j => attempt_nonneg _⟩
  · intro k hk1 hk2 h0 h1
    have hloop := send_cmd_loop_hit cmd w (k - 1) (by omega) h0 h1
    obtain ⟨p1, p2, _, _⟩ := print_reply_trace
      (attempt (before_attempt (frame_buffer cmd w, after_write cmd w) (k - 1))).2.1
      (poll_count cmd w (k - 1))
      (attempt (before_attempt (frame_buffer cmd w, after_write cmd w) (k - 1))).2.2
    have hw : (attempt (before_attempt (frame_buffer cmd w, after_write cmd w) (k - 1))).2.2
        = poll_world cmd w k := by
      obtain ⟨m, rfl⟩ : ∃ m, k = m + 1 := ⟨k - 1, by omega⟩
      rfl
    obtain ⟨f1, f2, _, _⟩ := poll_world_facts cmd w k
    rw [send_cmd_eq, hloop]
    refine ⟨by simpa using h1, ?_, ?_, ?_⟩
    · simp only []; rw [p1, hw, f1]
    · simp only []; rw [p2, hw, f2]
    · simp only [RETRIES] at hk2 ⊢; omega
  · intro h0
    obtain ⟨f1, f2, _, _⟩ := poll_world_facts cmd w RETRIES
    rw [send_cmd_miss cmd w h0, send_cmd_loop_miss cmd w h0]
    exact ⟨rfl, f1, f2, rfl⟩

/-- Witness for C2: a line that gives nothing at the first poll and three bytes at the
second, and a line that never gives anything. -/
theorem send_cmd_poll_attempts_witness :
    (poll_count (cstr "TP") (opened [ReadOutcome.error EAGAIN, ReadOutcome.data [80, 13, 3]]) 0 = 0 ∧
      0 < poll_count (cstr "TP") (opened [ReadOutcome.error EAGAIN, ReadOutcome.data [80, 13, 3]]) 1 ∧
      (send_cmd (cstr "TP") (opened [ReadOutcome.error EAGAIN, ReadOutcome.data [80, 13, 3]])).1 = true ∧
      (send_cmd_loop (cstr "TP") (opened [ReadOutcome.error EAGAIN, ReadOutcome.data [80, 13, 3]])).1
        + (2 - 1) = RETRIES) ∧
    ((List.range 10).map (poll_count (cstr "TP") (opened [])) = List.replicate 10 0 ∧
      (send_cmd (cstr "TP") (opened [])).1 = false ∧
      polls (send_cmd (cstr "TP") (opened [])).2.trace
        = [true, false, true, false, true, false, true, false, true, false,
           true, false, true, false, true, false, true, false, true, false]) :=
  ⟨⟨by decide, by decide,
    ((send_cmd_poll_attempts (cstr "TP")
      (opened [ReadOutcome.error EAGAIN, ReadOutcome.data [80, 13, 3]])).1 2 (by decide) (by decide)
      (by decide) (by decide)).1,
    ((send_cmd_poll_attempts (cstr "TP")
      (opened [ReadOutcome.error EAGAIN, ReadOutcome.data [80, 13, 3]])).1 2 (by decide) (by decide)
      (by decide) (by decide)).2.2.2⟩,
   ⟨by decide,
    ((send_cmd_poll_attempts (cstr "TP") (opened [])).2.1 (by decide)).1,
    ((send_cmd_poll_attempts (cstr "TP") (opened [])).2.1 (by decide)).2.1⟩⟩

theorem filter_ok_byte (bs : List Nat) :
    bs.filter ok_byte = bs.filter (fun c => decide (c ≠ 3 ∧ c ≠ 13)) := by
  apply List.filter_congr
  intro c _
  by_cases h : c ≠ 3 ∧ c ≠ 13
  · simp [(ok_byte_iff c).2 h, h]
  · have : ok_byte c = false := by
      cases hc : ok_byte c
      · rfl
      · exact absurd ((ok_byte_iff c).1 hc) h
    simp only [this]
    exact (decide_eq_false h).symm

/-- C3: when the successful poll attempt (attempt `k`, the first to read anything) has
read the `n ≥ 1` bytes `bs`, what `send_cmd` adds to the output is exactly `bs`
without its bytes 3 and 13, in read order; when no attempt of the budget reads a
byte, `send_cmd` adds nothing to the output. -/
theorem send_cmd_output (cmd : List Nat) (w : World) :
    (∀ k bs, 1 ≤ k → k ≤ RETRIES → (∀ j, j < k - 1 → poll_count cmd w j = 0) →
      poll_read cmd w (k - 1) = ReadRes.bytes bs → 1 ≤ bs.length →
        (send_cmd cmd w).2.out = w.out ++ bs.filter (fun c => decide (c ≠ 3 ∧ c ≠ 13))) ∧
    ((∀ j, j < RETRIES → poll_count cmd w j = 0) → (send_cmd cmd w).2.out = w.out) := by
  constructor
  · intro k bs hk1 hk2 h0 hr hn
    obtain ⟨r1, r2⟩ := attempt_result (before_attempt (frame_buffer cmd w, after_write cmd w) (k - 1))
    have hr' : attempt_read (before_attempt (frame_buffer cmd w, after_write cmd w) (k - 1))
        = ReadRes.bytes bs := hr
    rw [hr'] at r1 r2
    simp only [] at r1 r2
    have hc : poll_count cmd w (k - 1) = (bs.length : Int) := r1
    have hloop := send_cmd_loop_hit cmd w (k - 1) (by omega) h0 (by rw [hc]; omega)
    rw [send_cmd_eq, hloop]
    simp only []
    rw [hc, r2, print_reply_out, filter_ok_byte]
    obtain ⟨_, _, _, a4⟩ := attempt_facts (before_attempt (frame_buffer cmd w, after_write cmd w) (k - 1))
    obtain ⟨_, _, _, b4⟩ := before_attempt_facts (frame_buffer cmd w, after_write cmd w) (k - 1)
    rw [a4, b4, (after_write_facts cmd w).2.1]
  · intro h0
    rw [send_cmd_miss cmd w h0]
    exact (poll_world_facts cmd w RETRIES).2.2.2

/-- Witness for C3: the second poll reads `P:+1 CR LF ETX`; the line that gives nothing
leaves the output empty. -/
theorem send_cmd_output_witness :
    (poll_count (cstr "TP")
        (opened [ReadOutcome.error EAGAIN, ReadOutcome.data [80, 58, 43, 49, 13, 10, 3]]) 0 = 0 ∧
      poll_read (cstr "TP")
        (opened [ReadOutcome.error EAGAIN, ReadOutcome.data [80, 58, 43, 49, 13, 10, 3]]) 1
          = ReadRes.bytes [80, 58, 43, 49, 13, 10, 3] ∧
      (send_cmd (cstr "TP")
        (opened [ReadOutcome.error EAGAIN, ReadOutcome.data [80, 58, 43, 49, 13, 10, 3]])).2.out
          = [80, 58, 43, 49, 10]) ∧
    ((List.range 10).map (poll_count (cstr "TP") (opened [])) = List.replicate 10 0 ∧
      (send_cmd (cstr "TP") (opened [])).2.out = []) :=
  ⟨⟨by decide, by decide,
    (send_cmd_output (cstr "TP")
      (opened [ReadOutcome.error EAGAIN, ReadOutcome.data [80, 58, 43, 49, 13, 10, 3]])).1 2
      [80, 58, 43, 49, 13, 10, 3] (by decide) (by decide) (by decide) (by decide) (by decide)⟩,
   ⟨by decide, (send_cmd_output (cstr "TP") (opened [])).2 (by decide)⟩⟩

/-! ## Read errors -/

/-- A `port_read` whose read fails with an error other than `EAGAIN` returns 0 and leaves
`fd = -1`; the descriptor, if it was the open one, is released. -/
theorem port_read_fatal (w : World) (buffer : List Nat) (len : Nat) (e : Nat)
    (h : (guarded_read w len).1 = ReadRes.fail e) (he : e ≠ EAGAIN) :
    (port_read w buffer len).1 = 0 ∧ (port_read w buffer len).2.2.fd = -1 ∧
    (w.valid w.fd = true → (port_read w buffer len).2.2.dev_open = false) := by
  refine ⟨?_, ?_, ?_⟩
  · rw [(port_read_result w buffer len).1, h]
  · rw [port_read_world]
    rcases hg : guarded_read w len with ⟨r, w3⟩
    rw [hg] at h
    simp only [] at h
    subst h
    simp [he, port_close_eq, sys_alarm, World.log]
  · intro hv
    rw [port_read_world]
    rw [guarded_read_valid w len hv] at h ⊢
    rcases hl : w.line with _ | ⟨o, rest⟩
    · rw [hl] at h
      simp only [ReadRes.fail.injEq] at h
      exact absurd h.symm he
    · rw [hl] at h
      cases o with
      | data bs => simp at h
      | error e' =>
        simp only [ReadRes.fail.injEq] at h
        subst h
        have hv2 : ∀ (l : List ReadOutcome) (a : Nat) (b : Bool) (tr : List Event),
            World.valid { w with line := l, alarm := a, handler := b, trace := tr } w.fd = true := by
          intro l a b tr; exact hv
        simp [he, port_close_eq, sys_alarm, World.log, hv2]
      | stall =>
        simp [port_close_eq, sys_alarm, World.log, EBADF, EAGAIN]

/-- A `port_read` with `fd = -1` reads from no descriptor: the read fails with `EBADF`,
0 is returned, `fd` stays `-1` and the line is not touched. -/
theorem port_read_closed (w : World) (buffer : List Nat) (len : Nat) (h : w.fd = -1) :
    (guarded_read w len).1 = ReadRes.fail EBADF ∧
    (port_read w buffer len).1 = 0 ∧ (port_read w buffer len).2.2.fd = -1 ∧
    (port_read w buffer len).2.2.line = w.line ∧
    (port_read w buffer len).2.2.dev_open = w.dev_open ∧
    (port_read w buffer len).2.2.dev_tio = w.dev_tio := by
  have hv : w.valid w.fd = false := by rw [h]; exact valid_neg_one w
  have hg := guarded_read_invalid w len hv
  have hv' : ∀ (a : Nat) (b : Bool) (tr : List Event),
      World.valid { w with alarm := a, handler := b, trace := tr } w.fd = false := by
    intro a b tr; exact hv
  refine ⟨by rw [hg], ?_, ?_, ?_, ?_, ?_⟩
  · rw [(port_read_result w buffer len).1, hg]
  all_goals
    rw [port_read_world, hg]
    simp [port_close_eq, sys_alarm, World.log, EBADF, EAGAIN, hv']

theorem attempt_fatal (s : List Nat × World) (e : Nat)
    (h : attempt_read s = ReadRes.fail e) (he : e ≠ EAGAIN) :
    (attempt s).1 = 0 ∧ (attempt s).2.2.fd = -1 ∧
    (s.2.valid s.2.fd = true → (attempt s).2.2.dev_open = false) :=
  port_read_fatal (sys_usleep s.2 USLEEP) s.1 BUFSIZE e h he

theorem attempt_closed (s : List Nat × World) (h : s.2.fd = -1) :
    attempt_read s = ReadRes.fail EBADF ∧ (attempt s).1 = 0 ∧ (attempt s).2.2.fd = -1 := by
  obtain ⟨h1, h2, h3, _⟩ := port_read_closed (sys_usleep s.2 USLEEP) s.1 BUFSIZE h
  exact ⟨h1, h2, h3⟩

/-- Once `fd = -1` before some poll attempt, it is `-1` before every later one. -/
theorem before_attempt_closed (s : List Nat × World) (j : Nat)
    (h : (before_attempt s j).2.fd = -1) : ∀ i, j ≤ i → (before_attempt s i).2.fd = -1 := by
  intro i hi
  induction i with
  | zero =>
    have : j = 0 := by omega
    subst this; exact h
  | succ i ih =>
    by_cases hji : j = i + 1
    · subst hji; exact h
    · exact (attempt_closed (before_attempt s i) (ih (by omega))).2.2

/-- C9: when poll attempt `j+1` of the budget fails with a read error other than
`EAGAIN` and no attempt before it has read a byte, then after that attempt `fd = -1`
(and the descriptor, if it was the open one, is released); every later poll attempt
of the call runs with `fd = -1`, its read fails with `EBADF` and it reads nothing;
`send_cmd` returns false, adds nothing to the output and ends with `fd = -1`. -/
theorem send_cmd_fatal_read (cmd : List Nat) (w : World) (j e : Nat) (hj : j < RETRIES)
    (h0 : ∀ i, i < j → poll_count cmd w i = 0)
    (h1 : poll_read cmd w j = ReadRes.fail e) (he : e ≠ EAGAIN) :
    (poll_world cmd w (j + 1)).fd = -1 ∧
    ((poll_world cmd w j).valid (poll_world cmd w j).fd = true →
      (poll_world cmd w (j + 1)).dev_open = false) ∧
    (∀ i, j < i → i < RETRIES →
      (poll_world cmd w i).fd = -1 ∧ poll_read cmd w i = ReadRes.fail EBADF ∧
        poll_count cmd w i = 0) ∧
    (send_cmd cmd w).1 = false ∧
    (send_cmd cmd w).2.out = w.out ∧
    (send_cmd cmd w).2.fd = -1 := by
  obtain ⟨f1, f2, f3⟩ := attempt_fatal (before_attempt (frame_buffer cmd w, after_write cmd w) j) e h1 he
  have hclosed : ∀ i, j + 1 ≤ i → (poll_world cmd w i).fd = -1 :=
    before_attempt_closed (frame_buffer cmd w, after_write cmd w) (j + 1) f2
  have hlater : ∀ i, j < i →
      (poll_world cmd w i).fd = -1 ∧ poll_read cmd w i = ReadRes.fail EBADF ∧
        poll_count cmd w i = 0 := by
    intro i hi
    have hc := hclosed i (by omega)
    obtain ⟨c1, c2, _⟩ := attempt_closed (before_attempt (frame_buffer cmd w, after_write cmd w) i) hc
    exact ⟨hc, c1, c2⟩
  have hall : ∀ i, i < RETRIES → poll_count cmd w i = 0 := by
    intro i _
    rcases Nat.lt_trichotomy i j with h | h | h
    · exact h0 i h
    · subst h; exact f1
    · exact (hlater i h).2.2
  rw [send_cmd_miss cmd w hall]
  exact ⟨f2, f3, fun i hi _ => hlater i hi, rfl, (poll_world_facts cmd w RETRIES).2.2.2,
    hclosed RETRIES (by omega)⟩

/-- Witness for C9: nothing at the first poll, an I/O error (`EIO`) at the second, and
a reply that comes too late. -/
theorem send_cmd_fatal_read_witness :
    poll_count (cstr "TP")
        (opened [ReadOutcome.error EAGAIN, ReadOutcome.error EIO, ReadOutcome.data [80, 13]]) 0 = 0 ∧
    poll_read (cstr "TP")
        (opened [ReadOutcome.error EAGAIN, ReadOutcome.error EIO, ReadOutcome.data [80, 13]]) 1
      = ReadRes.fail EIO ∧
    (send_cmd (cstr "TP")
        (opened [ReadOutcome.error EAGAIN, ReadOutcome.error EIO, ReadOutcome.data [80, 13]])).1 = false ∧
    (send_cmd (cstr "TP")
        (opened [ReadOutcome.error EAGAIN, ReadOutcome.error EIO, ReadOutcome.data [80, 13]])).2.out = [] ∧
    (send_cmd (cstr "TP")
        (opened [ReadOutcome.error EAGAIN, ReadOutcome.error EIO, ReadOutcome.data [80, 13]])).2.fd = -1 :=
  ⟨by decide, by decide,
    (send_cmd_fatal_read (cstr "TP")
      (opened [ReadOutcome.error EAGAIN, ReadOutcome.error EIO, ReadOutcome.data [80, 13]]) 1 5
      (by decide) (by decide) (by decide) (by decide)).2.2.2⟩

/-! ## The size of the frame -/

theorem strlen_replicate (n c : Nat) : strlen (List.replicate n c) = n := by
  unfold strlen
  exact List.length_replicate n c

theorem sprintf_fits (cmd : List Nat) (h : strlen cmd ≤ 252) :
    (sprintf_out cmd).length = strlen cmd + 4 ∧ sprintf_in_bounds cmd ∧ write_in_bounds cmd := by
  simp only [strlen] at h
  refine ⟨?_, ?_, ?_⟩
  · simp [sprintf_out, strlen]
  · simp [sprintf_in_bounds, sprintf_out, BUFSIZE]; omega
  · simp [write_in_bounds, strlen, BUFSIZE]; omega

theorem sprintf_overflow (cmd : List Nat) (h : 253 ≤ strlen cmd) :
    BUFSIZE < (sprintf_out cmd).length ∧ ¬ sprintf_in_bounds cmd := by
  simp only [strlen] at h
  constructor
  · simp [sprintf_out, BUFSIZE]; omega
  · simp [sprintf_in_bounds, sprintf_out, BUFSIZE]; omega

/-! ## What is written -/

theorem strcmp_replicate_A (lit : List Nat) (h : lit.head? ≠ some 65) (n : Nat) :
    strcmp (List.replicate (n + 1) 65) lit ≠ 0 := by
  cases lit with
  | nil => simp [List.replicate, strcmp]
  | cons b bs =>
    have hb : ¬ 65 = b := by
      intro hb; subst hb; simp at h
    simp only [List.replicate, strcmp, if_neg hb]
    split <;> simp

/-- C10: in `send_cmd`, for every command text of length at most 252 the formatted
frame with its terminating NUL takes `len+4` bytes, which fit the 256-byte buffer,
and the `len+3` bytes passed to `port_write` lie inside it.  The bound is tight: for
every text of length 253 or more the formatted frame needs more than 256 bytes, and
there is such a text (253 times `A`) that the switch of `main` passes to `send_cmd`
verbatim. -/
theorem send_cmd_buffer_bound :
    (∀ cmd : List Nat, strlen cmd ≤ 252 →
      (sprintf_out cmd).length = strlen cmd + 4 ∧ sprintf_in_bounds cmd ∧ write_in_bounds cmd) ∧
    (∀ cmd : List Nat, 253 ≤ strlen cmd →
      BUFSIZE < (sprintf_out cmd).length ∧ ¬ sprintf_in_bounds cmd) ∧
    (∃ cmd : List Nat, strlen cmd = 253 ∧ ¬ sprintf_in_bounds cmd ∧
      ∀ w, switch_command cmd w = (send_cmd cmd w).2) := by
  refine ⟨sprintf_fits, sprintf_overflow, ?_⟩
  refine ⟨List.replicate 253 65, strlen_replicate 253 65,
    (sprintf_overflow _ (by rw [strlen_replicate])).2, ?_⟩
  intro w
  unfold switch_command
  rw [if_neg (strcmp_replicate_A _ (by decide) 252),
    if_neg (strcmp_replicate_A _ (by decide) 252),
    if_neg (strcmp_replicate_A _ (by decide) 252),
    if_neg (strcmp_replicate_A _ (by decide) 252),
    if_neg (strcmp_replicate_A _ (by decide) 252),
    if_neg (strcmp_replicate_A _ (by decide) 252)]

/-- Witness for C10: a text of 252 bytes fits, one of 253 bytes does not. -/
theorem send_cmd_buffer_bound_witness :
    strlen (List.replicate 252 65) ≤ 252 ∧
    sprintf_in_bounds (List.replicate 252 65) ∧
    253 ≤ strlen (List.replicate 253 65) ∧
    ¬ sprintf_in_bounds (List.replicate 253 65) :=
  ⟨(strlen_replicate 252 65).le,
    (send_cmd_buffer_bound.1 (List.replicate 252 65) (strlen_replicate 252 65).le).2.1,
    (strlen_replicate 253 65).ge,
    (send_cmd_buffer_bound.2.1 (List.replicate 253 65) (strlen_replicate 253 65).ge).2⟩

/-! ## Idempotence of the output filter -/

theorem output_filter_eq (b : List Nat) : output_filter b = b.filter ok_byte := by
  have h := print_reply_out b [] (opened [])
  have hs : store b [] = b := by simp [store]
  rw [hs] at h
  rw [output_filter, h]
  rfl

/-- C8: the output filter of `send_cmd` is idempotent, and it returns unchanged every
buffer that has no byte 3 and no byte 13.  The filter is what the loop of lines
97-102 adds to the output, in any world and whatever follows the bytes read in the
buffer. -/
theorem output_filter_idempotent :
    (∀ b : List Nat, output_filter (output_filter b) = output_filter b) ∧
    (∀ b : List Nat, 3 ∉ b → 13 ∉ b → output_filter b = b) ∧
    (∀ (b buffer : List Nat) (w : World),
      (print_reply (store b buffer) (b.length : Int) w).out = w.out ++ output_filter b) := by
  refine ⟨?_, ?_, ?_⟩
  · intro b
    simp only [output_filter_eq, List.filter_filter, Bool.and_self]
  · intro b h3 h13
    rw [output_filter_eq, List.filter_eq_self]
    intro c hc
    rw [ok_byte_iff]
    exact ⟨fun h => h3 (h ▸ hc), fun h => h13 (h ▸ hc)⟩
  · intro b buffer w
    rw [print_reply_out, output_filter_eq]

/-- Witness for C8: a reply without terminators goes through unchanged. -/
theorem output_filter_idempotent_witness :
    3 ∉ [80, 58, 43, 49] ∧ 13 ∉ [80, 58, 43, 49] ∧ output_filter [80, 58, 43, 49] = [80, 58, 43, 49] :=
  ⟨by decide, by decide, output_filter_idempotent.2.1 [80, 58, 43, 49] (by decide) (by decide)⟩

/-! ## The dispatcher -/

/-- C4: `port_read` returns the byte count when the read does not fail (0 included) and
then does not call `port_close`; when the read fails it returns 0, and it calls
`port_close` exactly when the error is not `EAGAIN`; on `EAGAIN` the line stays as
it was (`fd` and the open descriptor are unchanged).  In every case the last thing
`port_read` does is `alarm(0)`, and no alarm is pending when it returns. -/
theorem port_read_outcomes (w : World) (buffer : List Nat) (len : Nat) :
    (∀ bs, (guarded_read w len).1 = ReadRes.bytes bs →
      (port_read w buffer len).1 = (bs.length : Int) ∧
      (port_read w buffer len).2.2 = sys_alarm (guarded_read w len).2 0) ∧
    (∀ e, (guarded_read w len).1 = ReadRes.fail e →
      (port_read w buffer len).1 = 0 ∧
      (e ≠ EAGAIN →
        (port_read w buffer len).2.2 = sys_alarm (port_close (guarded_read w len).2) 0 ∧
        (port_read w buffer len).2.2.fd = -1) ∧
      (e = EAGAIN →
        (port_read w buffer len).2.2 = sys_alarm (guarded_read w len).2 0 ∧
        (port_read w buffer len).2.2.fd = w.fd ∧
        (port_read w buffer len).2.2.dev_open = w.dev_open)) ∧
    (closes (port_read w buffer len).2.2.trace).length =
      (closes (guarded_read w len).2.trace).length +
        (match (guarded_read w len).1 with
          | ReadRes.bytes _ => 0
          | ReadRes.fail e => if e = EAGAIN then 0 else 1) ∧
    (port_read w buffer len).2.2.alarm = 0 ∧
    (port_read w buffer len).2.2.trace.getLast? = some (Event.alarm 0) := by
  obtain ⟨_, _, _, _, f5, f6⟩ := port_read_facts w buffer len
  refine ⟨?_, ?_, ?_, f5, f6⟩
  · intro bs h
    refine ⟨by rw [(port_read_result w buffer len).1, h], ?_⟩
    rw [port_read_world]
    rcases hg : guarded_read w len with ⟨r, w3⟩
    rw [hg] at h
    simp only [] at h
    subst h
    rfl
  · intro e h
    refine ⟨by rw [(port_read_result w buffer len).1, h], ?_, ?_⟩
    · intro he
      refine ⟨?_, (port_read_fatal w buffer len e h he).2.1⟩
      rw [port_read_world]
      rcases hg : guarded_read w len with ⟨r, w3⟩
      rw [hg] at h
      simp only [] at h
      subst h
      simp [he]
    · intro he
      subst he
      have hw : (port_read w buffer len).2.2 = sys_alarm (guarded_read w len).2 0 := by
        rw [port_read_world]
        rcases hg : guarded_read w len with ⟨r, w3⟩
        rw [hg] at h
        simp only [] at h
        subst h
        simp
      refine ⟨hw, ?_, ?_⟩
      · rw [hw]
        cases hv : w.valid w.fd
        · rw [guarded_read_invalid w len hv]; rfl
        · rw [guarded_read_valid w len hv] at h ⊢
          rcases hl : w.line with _ | ⟨o, rest⟩
          · rfl
          · rw [hl] at h
            cases o with
            | data bs => rfl
            | error e' => rfl
            | stall => simp [EBADF, EAGAIN] at h
      · rw [hw]
        cases hv : w.valid w.fd
        · rw [guarded_read_invalid w len hv]; rfl
        · rw [guarded_read_valid w len hv] at h ⊢
          rcases hl : w.line with _ | ⟨o, rest⟩
          · rfl
          · rw [hl] at h
            cases o with
            | data bs => rfl
            | error e' => rfl
            | stall => simp [EBADF, EAGAIN] at h
  · rw [port_read_world]
    rcases guarded_read w len with ⟨r, w3⟩
    cases r with
    | bytes bs => simp [sys_alarm, World.log, closes]
    | fail e =>
      by_cases he : e = EAGAIN
      · simp [he, sys_alarm, World.log, closes]
      · simp [he, sys_alarm, World.log, closes, port_close_eq]

/-- Witness for C4: a read of two bytes, a read that fails with `EIO`, and a read that
fails with `EAGAIN`. -/
theorem port_read_outcomes_witness :
    ((guarded_read (opened [ReadOutcome.data [65, 66]]) 256).1 = ReadRes.bytes [65, 66] ∧
      (port_read (opened [ReadOutcome.data [65, 66]]) [] 256).1 = 2) ∧
    ((guarded_read (opened [ReadOutcome.error EIO]) 256).1 = ReadRes.fail EIO ∧
      (port_read (opened [ReadOutcome.error EIO]) [] 256).1 = 0 ∧
      (port_read (opened [ReadOutcome.error EIO]) [] 256).2.2.fd = -1) ∧
    ((guarded_read (opened [ReadOutcome.error EAGAIN]) 256).1 = ReadRes.fail EAGAIN ∧
      (port_read (opened [ReadOutcome.error EAGAIN]) [] 256).1 = 0 ∧
      (port_read (opened [ReadOutcome.error EAGAIN]) [] 256).2.2.fd = 3) :=
  ⟨⟨by decide,
     ((port_read_outcomes (opened [ReadOutcome.data [65, 66]]) [] 256).1 [65, 66] (by decide)).1⟩,
   ⟨by decide,
     ((port_read_outcomes (opened [ReadOutcome.error EIO]) [] 256).2.1 5 (by decide)).1,
     (((port_read_outcomes (opened [ReadOutcome.error EIO]) [] 256).2.1 5 (by decide)).2.1
       (by decide)).2⟩,
   ⟨by decide,
     ((port_read_outcomes (opened [ReadOutcome.error EAGAIN]) [] 256).2.1 11 (by decide)).1,
     (((port_read_outcomes (opened [ReadOutcome.error EAGAIN]) [] 256).2.1 11 (by decide)).2.2
       (by decide)).2.1⟩⟩

/-! ## The watchdog -/

/-- C5: on an open line whose read does not return before the alarm, `alarm_handler`
runs during the read and `port_read` returns 0 with `fd = -1`, the descriptor
released and the saved configuration restored.  A `port_read` after that returns 0
too: its one read is made on descriptor `-1`, not on the released one, and fails
with `EBADF`; it leaves `fd = -1` and does not touch the line.  Both calls return
(the functions are total). -/
theorem port_read_stall (w : World) (buffer buffer2 : List Nat) (len len2 : Nat)
    (rest : List ReadOutcome)
    (hv : w.valid w.fd = true) (hl : w.line = ReadOutcome.stall :: rest) :
    (port_read w buffer len).1 = 0 ∧
    (port_read w buffer len).2.2.fd = -1 ∧
    (port_read w buffer len).2.2.dev_open = false ∧
    (port_read w buffer len).2.2.dev_tio = w.oldtio ∧
    (port_read w buffer len).2.2.trace =
      w.trace ++ [Event.signal_SIGALRM, Event.alarm 5, Event.sigalrm_delivered,
        Event.tcsetattr w.fd true, Event.close w.fd true,
        Event.read w.fd len (ReadRes.fail EBADF),
        Event.tcsetattr (-1) false, Event.close (-1) false, Event.alarm 0] ∧
    (port_read (port_read w buffer len).2.2 buffer2 len2).1 = 0 ∧
    reads (port_read (port_read w buffer len).2.2 buffer2 len2).2.2.trace =
      reads (port_read w buffer len).2.2.trace ++ [(-1, ReadRes.fail EBADF)] ∧
    w.fd ≠ -1 ∧
    (port_read (port_read w buffer len).2.2 buffer2 len2).2.2.fd = -1 ∧
    (port_read (port_read w buffer len).2.2 buffer2 len2).2.2.line = rest := by
  have hg := guarded_read_valid w len hv
  rw [hl] at hg
  simp only [] at hg
  have hw := port_read_world w buffer len
  rw [hg] at hw
  have hne : w.fd ≠ -1 := by
    intro h
    rw [h, valid_neg_one] at hv
    exact absurd hv (by decide)
  have hfd : (port_read w buffer len).2.2.fd = -1 := by
    rw [hw]; simp [port_close_eq, sys_alarm, World.log, EBADF, EAGAIN]
  have hline : (port_read w buffer len).2.2.line = rest := by
    rw [hw]; simp [port_close_eq, sys_alarm, World.log, EBADF, EAGAIN]
  obtain ⟨c1, c2, c3, c4, _, _⟩ := port_read_closed (port_read w buffer len).2.2 buffer2 len2 hfd
  obtain ⟨_, r2, _⟩ := port_read_facts (port_read w buffer len).2.2 buffer2 len2
  refine ⟨?_, hfd, ?_, ?_, ?_, c2, ?_, hne, c3, by rw [c4, hline]⟩
  · rw [(port_read_result w buffer len).1, hg]
  · rw [hw]; simp [port_close_eq, sys_alarm, World.log, EBADF, EAGAIN]
  · rw [hw]; simp [port_close_eq, sys_alarm, World.log, EBADF, EAGAIN, valid_neg_one]
  · rw [hw]; simp [port_close_eq, sys_alarm, World.log, EBADF, EAGAIN, valid_neg_one]
  · rw [r2, c1, hfd]

/-- Witness for C5: the open line stalls at once. -/
theorem port_read_stall_witness :
    (opened [ReadOutcome.stall]).valid (opened [ReadOutcome.stall]).fd = true ∧
    (port_read (opened [ReadOutcome.stall]) [] 256).1 = 0 ∧
    (port_read (opened [ReadOutcome.stall]) [] 256).2.2.fd = -1 ∧
    (port_read (port_read (opened [ReadOutcome.stall]) [] 256).2.2 [] 256).1 = 0 :=
  ⟨by decide,
    (port_read_stall (opened [ReadOutcome.stall]) [] [] 256 256 [] (by decide) (by decide)).1,
    (port_read_stall (opened [ReadOutcome.stall]) [] [] 256 256 [] (by decide) (by decide)).2.1,
    (port_read_stall (opened [ReadOutcome.stall]) [] [] 256 256 [] (by decide)
      (by decide)).2.2.2.2.2.1⟩

/-! ## Closing twice -/

end Motor
